import Mathlib

/-!
Shallow embedding of `src/utils/dataforseo_client.py` (the DataForSEO API
client). Python dicts/JSON values are modelled by the inductive `JVal`;
`dict.get(k)` is `JVal.get`, `dict.get(k, d)` is `(JVal.get v k).getD d`,
and `k in d` is `(JVal.get v k).isSome`. Python truthiness of optional
strings / ints is modelled by `truthyStr` / `truthyInt`. The aiohttp
session and the client object are modelled by `Session` / `ClientState`;
the network is an explicit `provider` oracle mapping the request payload
to the provider response (for the GET endpoint, a `Unit → JVal` oracle).
Each query method returns the Python outcome (`Except PyErr …`), the
number of HTTP requests actually issued, and the client state after the
call.
-/

/-- A JSON-ish Python value: dicts are association lists in insertion
order (keys unique, as in a Python dict). -/
inductive JVal where
  | null
  | bool (b : Bool)
  | int (n : Int)
  | str (s : String)
  | arr (xs : List JVal)
  | obj (fields : List (String × JVal))

/-- `d.get(k)` on a Python dict: `none` when the key is absent or the
value is not a dict. -/
def JVal.get : JVal → String → Option JVal
  | .obj fs, k => fs.lookup k
  | _, _ => none

/-- Iterating a Python value that the code expects to be a list. All
claims concern well-formed responses whose iterated fields are lists;
a non-list here would raise `TypeError` in Python, a case no claim
exercises, so it is modelled as the empty iteration. -/
def JVal.asList : JVal → List JVal
  | .arr xs => xs
  | _ => []

/-- Python truthiness of an `Optional[str]`: `None` and `""` are falsy. -/
def truthyStr : Option String → Bool
  | none => false
  | some s => !(s == "")

/-- Python truthiness of an `Optional[int]`: `None` and `0` are falsy. -/
def truthyInt : Option Int → Bool
  | none => false
  | some n => !(n == 0)

/-- The exceptions the client code can raise.
`invalidArgument` is Python `ValueError` (raised by argument validation),
`clientNotInitialized` is the `DataForSEOError` raised when
`self.session` is `None`, `sessionClosed` is the `RuntimeError` aiohttp
raises when a request is attempted on a closed session (re-raised by the
final `except Exception: raise`), `providerError` is the
`DataForSEOError` raised on a non-20000 envelope (carrying the
envelope's status code and status message), and `keyError` is Python
`KeyError` from a `d[k]` lookup on a missing key. -/
inductive PyErr where
  | invalidArgument (msg : String)
  | clientNotInitialized
  | sessionClosed
  | providerError (code : JVal) (msg : JVal)
  | keyError (key : String)

/-- An aiohttp `ClientSession`: the only state the client observes is
whether it has been closed. -/
structure Session where
  closed : Bool
deriving DecidableEq, Repr

/-- The mutable state of a `DataForSEOClient`: its `self.session`
attribute (`None` before `__aenter__`). -/
structure ClientState where
  session : Option Session
deriving DecidableEq, Repr

/-- A freshly constructed client: `self.session = None`. -/
def initState : ClientState := { session := none }

/-- `__aenter__`: installs a fresh open session. -/
def aenter (_st : ClientState) : ClientState :=
  { session := some { closed := false } }

/-- `__aexit__`: `if self.session: await self.session.close()`.
Closing mutates the session object; the `session` attribute itself is
NOT reset to `None`. -/
def aexit (st : ClientState) : ClientState :=
  match st.session with
  | some _ => { session := some { closed := true } }
  | none => st

/-- Python `d.get("status_code") == 20000`: true exactly when the value
is present and is the integer 20000 (any other value, or absence,
compares unequal in Python). Used for both the envelope and per-task
status checks. -/
def statusIsSuccess (v : JVal) : Bool :=
  match v.get "status_code" with
  | some (.int n) => n == 20000
  | _ => false

/-- The envelope check in `_make_request`:
`response_data.get("status_code") != 20000` raises
`DataForSEOError(f"API error {code}: {msg}")` with
`msg = response_data.get("status_message", "Unknown error")`. -/
def checkEnvelope (resp : JVal) : Except PyErr JVal :=
  if statusIsSuccess resp then .ok resp
  else .error (.providerError ((resp.get "status_code").getD .null)
    ((resp.get "status_message").getD (.str "Unknown error")))

/-- `_make_request` for POST: raises `DataForSEOError` when
`self.session` is `None`; a closed session makes aiohttp raise before
any request is sent; otherwise the request is issued (count 1) and the
envelope is checked. Returns the outcome and the number of HTTP
requests issued. -/
def makeRequest (st : ClientState) (provider : JVal → JVal) (payload : JVal) :
    Except PyErr JVal × Nat :=
  match st.session with
  | none => (.error .clientNotInitialized, 0)
  | some s =>
    if s.closed then (.error .sessionClosed, 0)
    else (checkEnvelope (provider payload), 1)

/-- `_make_request` for GET (no payload): same session guard and
envelope check. -/
def makeRequestGET (st : ClientState) (provider : Unit → JVal) :
    Except PyErr JVal × Nat :=
  match st.session with
  | none => (.error .clientNotInitialized, 0)
  | some s =>
    if s.closed then (.error .sessionClosed, 0)
    else (checkEnvelope (provider ()), 1)

/-- The `SearchVolumeResult` dataclass. Field values are the raw JSON
values copied from the response (defaults: `location_code=None`,
`language_code=None`, `use_clickstream=True`). -/
structure SearchVolumeResult where
  keyword : JVal
  search_volume : JVal
  monthly_searches : JVal
  location_code : JVal
  language_code : JVal
  use_clickstream : JVal

/-- The `GlobalSearchVolumeResult` dataclass. -/
structure GlobalSearchVolumeResult where
  keyword : JVal
  search_volume : JVal
  country_distribution : JVal

/-- `response.get("tasks", [])` iterated as a list. -/
def tasksOf (resp : JVal) : List JVal :=
  ((resp.get "tasks").getD (.arr [])).asList

/-- `task.get("result", [])` iterated as a list. -/
def resultsOf (t : JVal) : List JVal :=
  ((t.get "result").getD (.arr [])).asList

/-- `result.get("items", [])` iterated as a list. -/
def itemsOf (r : JVal) : List JVal :=
  ((r.get "items").getD (.arr [])).asList

/-- The guard `"keyword" in result and "search_volume" in result` in
`get_search_volume`. -/
def hasKwSv (r : JVal) : Bool :=
  (r.get "keyword").isSome && (r.get "search_volume").isSome

/-- The `SearchVolumeResult(...)` construction in `get_search_volume`:
`keyword=result["keyword"]`, `search_volume=result["search_volume"]`,
`monthly_searches=result.get("monthly_searches", [])`,
`location_code=result.get("location_code")`,
`language_code=result.get("language_code")`,
`use_clickstream=result.get("use_clickstream", True)`.
The `getD .null` on the first two fields is only reached under the
`hasKwSv` guard, where it returns the present value. -/
def mkSVResult (r : JVal) : SearchVolumeResult :=
  { keyword := (r.get "keyword").getD .null
    search_volume := (r.get "search_volume").getD .null
    monthly_searches := (r.get "monthly_searches").getD (.arr [])
    location_code := (r.get "location_code").getD .null
    language_code := (r.get "language_code").getD .null
    use_clickstream := (r.get "use_clickstream").getD (.bool true) }

/-- The inner result loop of `get_search_volume`: one appended record
per result object holding both `keyword` and `search_volume`; other
result objects are silently skipped. -/
def svResultsLoop : List JVal → List SearchVolumeResult
  | [] => []
  | r :: rs =>
    if hasKwSv r then mkSVResult r :: svResultsLoop rs
    else svResultsLoop rs

/-- The task loop of `get_search_volume`: a task whose own status code
is not 20000 is logged and skipped (`continue`); succeeding tasks
contribute their parsed results in order. -/
def svTasksLoop : List JVal → List SearchVolumeResult
  | [] => []
  | t :: ts =>
    if statusIsSuccess t then svResultsLoop (resultsOf t) ++ svTasksLoop ts
    else svTasksLoop ts

/-- Response parsing in `get_search_volume` (the loops after the POST). -/
def parseSearchVolume (resp : JVal) : List SearchVolumeResult :=
  svTasksLoop (tasksOf resp)

/-- The payload object built by `get_search_volume`, fields in dict
insertion order: `keywords`, `use_clickstream`, then `location_name`
elif `location_code` (each only when truthy), then `language_name`
elif `language_code`, then `tag` when truthy. The `getD` fallbacks are
only reached when the corresponding option is truthy, hence present. -/
def svPayloadFields (keywords : List String)
    (location_name : Option String) (location_code : Option Int)
    (language_name : Option String) (language_code : Option String)
    (use_clickstream : Bool) (tag : Option String) : List (String × JVal) :=
  [("keywords", JVal.arr (keywords.map JVal.str)),
   ("use_clickstream", JVal.bool use_clickstream)] ++
  (if truthyStr location_name then [("location_name", JVal.str (location_name.getD ""))]
   else if truthyInt location_code then [("location_code", JVal.int (location_code.getD 0))]
   else []) ++
  (if truthyStr language_name then [("language_name", JVal.str (language_name.getD ""))]
   else if truthyStr language_code then [("language_code", JVal.str (language_code.getD ""))]
   else []) ++
  (if truthyStr tag then [("tag", JVal.str (tag.getD ""))] else [])

/-- The request body of `get_search_volume`: a one-element list holding
the payload object. -/
def buildSVPayload (keywords : List String)
    (location_name : Option String) (location_code : Option Int)
    (language_name : Option String) (language_code : Option String)
    (use_clickstream : Bool) (tag : Option String) : JVal :=
  .arr [.obj (svPayloadFields keywords location_name location_code
    language_name language_code use_clickstream tag)]

/-- `get_search_volume`: argument validation in source order, payload
build, one POST through `_make_request`, then response parsing. The
method reads but never writes any client attribute, so the returned
state is the input state. -/
def get_search_volume (st : ClientState) (keywords : List String)
    (location_name : Option String) (location_code : Option Int)
    (language_name : Option String) (language_code : Option String)
    (use_clickstream : Bool) (tag : Option String)
    (provider : JVal → JVal) :
    Except PyErr (List SearchVolumeResult) × Nat × ClientState :=
  if keywords.isEmpty then
    (.error (.invalidArgument "Keywords list cannot be empty"), 0, st)
  else if keywords.length > 1000 then
    (.error (.invalidArgument "Maximum 1000 keywords allowed per request"), 0, st)
  else if !(truthyStr location_name || truthyInt location_code) then
    (.error (.invalidArgument "Either location_name or location_code is required"), 0, st)
  else if !(truthyStr language_name || truthyStr language_code) then
    (.error (.invalidArgument "Either language_name or language_code is required"), 0, st)
  else
    match makeRequest st provider (buildSVPayload keywords location_name
      location_code language_name language_code use_clickstream tag) with
    | (.error e, n) => (.error e, n, st)
    | (.ok resp, n) => (.ok (parseSearchVolume resp), n, st)

/-- The item loop of `get_global_search_volume`: `item["keyword"]` and
`item["search_volume"]` raise `KeyError` when the key is absent
(evaluated in that order); `country_distribution` uses `.get` with
default `[]`. -/
def gsvItemsLoop : List JVal → Except PyErr (List GlobalSearchVolumeResult)
  | [] => .ok []
  | item :: rest =>
    match item.get "keyword" with
    | none => .error (.keyError "keyword")
    | some kw =>
      match item.get "search_volume" with
      | none => .error (.keyError "search_volume")
      | some sv =>
        match gsvItemsLoop rest with
        | .error e => .error e
        | .ok tl => .ok (
            { keyword := kw
              search_volume := sv
              country_distribution :=
                (item.get "country_distribution").getD (.arr []) } :: tl)

/-- The result loop of `get_global_search_volume`: items are read from
the nested `result[].items` array. -/
def gsvResultsLoop : List JVal → Except PyErr (List GlobalSearchVolumeResult)
  | [] => .ok []
  | r :: rs =>
    match gsvItemsLoop (itemsOf r) with
    | .error e => .error e
    | .ok xs =>
      match gsvResultsLoop rs with
      | .error e => .error e
      | .ok ys => .ok (xs ++ ys)

/-- The task loop of `get_global_search_volume`: failing tasks are
logged and skipped. -/
def gsvTasksLoop : List JVal → Except PyErr (List GlobalSearchVolumeResult)
  | [] => .ok []
  | t :: ts =>
    if statusIsSuccess t then
      match gsvResultsLoop (resultsOf t) with
      | .error e => .error e
      | .ok xs =>
        match gsvTasksLoop ts with
        | .error e => .error e
        | .ok ys => .ok (xs ++ ys)
    else gsvTasksLoop ts

/-- Response parsing in `get_global_search_volume`. -/
def parseGlobalSearchVolume (resp : JVal) :
    Except PyErr (List GlobalSearchVolumeResult) :=
  gsvTasksLoop (tasksOf resp)

/-- The payload object of `get_global_search_volume`: `keywords`, then
`tag` when truthy. -/
def gsvPayloadFields (keywords : List String) (tag : Option String) :
    List (String × JVal) :=
  [("keywords", JVal.arr (keywords.map JVal.str))] ++
  (if truthyStr tag then [("tag", JVal.str (tag.getD ""))] else [])

/-- The request body of `get_global_search_volume`. -/
def buildGSVPayload (keywords : List String) (tag : Option String) : JVal :=
  .arr [.obj (gsvPayloadFields keywords tag)]

/-- `get_global_search_volume`: validation (empty list, >1000 items,
then the per-keyword 3-character minimum, raising at the first short
keyword — the Python message quotes that keyword), payload build, one
POST, then parsing. -/
def get_global_search_volume (st : ClientState) (keywords : List String)
    (tag : Option String) (provider : JVal → JVal) :
    Except PyErr (List GlobalSearchVolumeResult) × Nat × ClientState :=
  if keywords.isEmpty then
    (.error (.invalidArgument "Keywords list cannot be empty"), 0, st)
  else if keywords.length > 1000 then
    (.error (.invalidArgument "Maximum 1000 keywords allowed per request"), 0, st)
  else
    match keywords.find? (fun k => decide (k.length < 3)) with
    | some k =>
      (.error (.invalidArgument ("Keyword " ++ k ++ " must be at least 3 characters")), 0, st)
    | none =>
      match makeRequest st provider (buildGSVPayload keywords tag) with
      | (.error e, n) => (.error e, n, st)
      | (.ok resp, n) =>
        match parseGlobalSearchVolume resp with
        | .error e => (.error e, n, st)
        | .ok rs => (.ok rs, n, st)

/-- The item loop of `get_search_volume_by_location`:
`keyword=item["keyword"]` and `search_volume=item["search_volume"]`
raise `KeyError` when absent; `monthly_searches=item.get("monthly_searches", [])`;
`location_code=result.get("location_code")` comes from the enclosing
result object (passed in as `resultLoc`); `language_code` and
`use_clickstream` keep the dataclass defaults (`None`, `True`). -/
def svblItemsLoop (resultLoc : JVal) :
    List JVal → Except PyErr (List SearchVolumeResult)
  | [] => .ok []
  | item :: rest =>
    match item.get "keyword" with
    | none => .error (.keyError "keyword")
    | some kw =>
      match item.get "search_volume" with
      | none => .error (.keyError "search_volume")
      | some sv =>
        match svblItemsLoop resultLoc rest with
        | .error e => .error e
        | .ok tl => .ok (
            { keyword := kw
              search_volume := sv
              monthly_searches := (item.get "monthly_searches").getD (.arr [])
              location_code := resultLoc
              language_code := .null
              use_clickstream := .bool true } :: tl)

/-- The result loop of `get_search_volume_by_location`: items nested
under `result[].items`. -/
def svblResultsLoop : List JVal → Except PyErr (List SearchVolumeResult)
  | [] => .ok []
  | r :: rs =>
    match svblItemsLoop ((r.get "location_code").getD .null) (itemsOf r) with
    | .error e => .error e
    | .ok xs =>
      match svblResultsLoop rs with
      | .error e => .error e
      | .ok ys => .ok (xs ++ ys)

/-- The task loop of `get_search_volume_by_location`: failing tasks are
logged and skipped. -/
def svblTasksLoop : List JVal → Except PyErr (List SearchVolumeResult)
  | [] => .ok []
  | t :: ts =>
    if statusIsSuccess t then
      match svblResultsLoop (resultsOf t) with
      | .error e => .error e
      | .ok xs =>
        match svblTasksLoop ts with
        | .error e => .error e
        | .ok ys => .ok (xs ++ ys)
    else svblTasksLoop ts

/-- Response parsing in `get_search_volume_by_location`. -/
def parseSearchVolumeByLocation (resp : JVal) :
    Except PyErr (List SearchVolumeResult) :=
  svblTasksLoop (tasksOf resp)

/-- The payload object of `get_search_volume_by_location`: `keywords`,
then `location_name` elif `location_code`, then `tag` when truthy. -/
def svblPayloadFields (keywords : List String)
    (location_name : Option String) (location_code : Option Int)
    (tag : Option String) : List (String × JVal) :=
  [("keywords", JVal.arr (keywords.map JVal.str))] ++
  (if truthyStr location_name then [("location_name", JVal.str (location_name.getD ""))]
   else if truthyInt location_code then [("location_code", JVal.int (location_code.getD 0))]
   else []) ++
  (if truthyStr tag then [("tag", JVal.str (tag.getD ""))] else [])

/-- The request body of `get_search_volume_by_location`. -/
def buildSVBLPayload (keywords : List String)
    (location_name : Option String) (location_code : Option Int)
    (tag : Option String) : JVal :=
  .arr [.obj (svblPayloadFields keywords location_name location_code tag)]

/-- `get_search_volume_by_location`: validation is only the empty-list
check and the location-field check (no 1000-item cap and no 3-character
minimum on this path), then payload build, one POST, then parsing. -/
def get_search_volume_by_location (st : ClientState) (keywords : List String)
    (location_name : Option String) (location_code : Option Int)
    (tag : Option String) (provider : JVal → JVal) :
    Except PyErr (List SearchVolumeResult) × Nat × ClientState :=
  if keywords.isEmpty then
    (.error (.invalidArgument "Keywords list cannot be empty"), 0, st)
  else if !(truthyStr location_name || truthyInt location_code) then
    (.error (.invalidArgument "Either location_name or location_code is required"), 0, st)
  else
    match makeRequest st provider (buildSVBLPayload keywords location_name
      location_code tag) with
    | (.error e, n) => (.error e, n, st)
    | (.ok resp, n) =>
      match parseSearchVolumeByLocation resp with
      | .error e => (.error e, n, st)
      | .ok rs => (.ok rs, n, st)

/-- `get_locations_and_languages`: a single GET through `_make_request`;
the status-checked raw response is passed through unchanged. -/
def get_locations_and_languages (st : ClientState) (provider : Unit → JVal) :
    Except PyErr JVal × Nat × ClientState :=
  match makeRequestGET st provider with
  | (.error e, n) => (.error e, n, st)
  | (.ok resp, n) => (.ok resp, n, st)

/-! Helper lemmas shared by several theorems. -/

/-- The inner result loop of `get_search_volume` is a filter-then-map:
one record per object passing the `hasKwSv` guard, in order. -/
theorem svResultsLoop_eq (rs : List JVal) :
    svResultsLoop rs = (rs.filter hasKwSv).map mkSVResult := by
  induction rs with
  | nil => rfl
  | cons r rs ih =>
    by_cases h : hasKwSv r <;> simp [svResultsLoop, List.filter_cons, h, ih]

/-- The task loop of `get_search_volume`: only tasks whose status code
is 20000 contribute, each contributing its guarded result items in
order. -/
theorem svTasksLoop_eq (ts : List JVal) :
    svTasksLoop ts = (ts.filter statusIsSuccess).flatMap
      (fun t => ((resultsOf t).filter hasKwSv).map mkSVResult) := by
  induction ts with
  | nil => rfl
  | cons t ts ih =>
    by_cases h : statusIsSuccess t <;>
      simp [svTasksLoop, List.filter_cons, h, ih, svResultsLoop_eq]

/-- A truthy optional string is `some` of its `getD` value. -/
theorem map_str_of_truthy (o : Option String) (h : truthyStr o = true) :
    o.map JVal.str = some (.str (o.getD "")) := by
  cases o <;> simp_all [truthyStr]

/-- A truthy optional int is `some` of its `getD` value. -/
theorem map_int_of_truthy (o : Option Int) (h : truthyInt o = true) :
    o.map JVal.int = some (.int (o.getD 0)) := by
  cases o <;> simp_all [truthyInt]

/-- `get_search_volume` never writes any client attribute: the state it
returns is the state it was given. -/
theorem sv_state_fixed (st : ClientState) (keywords : List String)
    (ln : Option String) (lc : Option Int) (lgn lgc : Option String)
    (uc : Bool) (tag : Option String) (provider : JVal → JVal) :
    (get_search_volume st keywords ln lc lgn lgc uc tag provider).2.2 = st := by
  unfold get_search_volume
  repeat' split
  all_goals rfl

/-- `get_global_search_volume` never writes any client attribute. -/
theorem gsv_state_fixed (st : ClientState) (keywords : List String)
    (tag : Option String) (provider : JVal → JVal) :
    (get_global_search_volume st keywords tag provider).2.2 = st := by
  unfold get_global_search_volume
  repeat' split
  all_goals rfl

/-- `get_search_volume_by_location` never writes any client attribute. -/
theorem svbl_state_fixed (st : ClientState) (keywords : List String)
    (ln : Option String) (lc : Option Int) (tag : Option String)
    (provider : JVal → JVal) :
    (get_search_volume_by_location st keywords ln lc tag provider).2.2 = st := by
  unfold get_search_volume_by_location
  repeat' split
  all_goals rfl

/-! C1 -/

/-- C1: on an acquired client, with arguments passing validation, when
the provider response has envelope status code 20000,
`get_search_volume` returns OK with exactly one `SearchVolumeResult`
per result item (of each task with status code 20000) that contains
both a `keyword` and a `search_volume` field, in order — items missing
either field are silently dropped — and the record constructor copies
`keyword`, `search_volume` and `monthly_searches` verbatim (the monthly
list exactly as received, never re-sorted). -/
theorem c1_locale_parse (keywords : List String) (ln : Option String)
    (lc : Option Int) (lgn lgc : Option String) (uc : Bool)
    (tag : Option String) (provider : JVal → JVal) (resp : JVal)
    (hkw : keywords.isEmpty = false)
    (hlen : ¬ keywords.length > 1000)
    (hloc : (truthyStr ln || truthyInt lc) = true)
    (hlang : (truthyStr lgn || truthyStr lgc) = true)
    (hresp : provider (buildSVPayload keywords ln lc lgn lgc uc tag) = resp)
    (henv : statusIsSuccess resp = true) :
    (get_search_volume { session := some { closed := false } } keywords
        ln lc lgn lgc uc tag provider).1
      = .ok (((tasksOf resp).filter statusIsSuccess).flatMap
          (fun t => ((resultsOf t).filter hasKwSv).map mkSVResult))
    ∧ (∀ r v, r.get "keyword" = some v → (mkSVResult r).keyword = v)
    ∧ (∀ r v, r.get "search_volume" = some v → (mkSVResult r).search_volume = v)
    ∧ (∀ r v, r.get "monthly_searches" = some v →
        (mkSVResult r).monthly_searches = v) := by
  refine ⟨?_, ?_, ?_, ?_⟩
  · have hmk : makeRequest { session := some { closed := false } } provider
        (buildSVPayload keywords ln lc lgn lgc uc tag) = (.ok resp, 1) := by
      simp [makeRequest, hresp, checkEnvelope, henv]
    simp [get_search_volume, hkw, hlen, hloc, hlang, hmk, parseSearchVolume,
      svTasksLoop_eq]
  · intro r v h; simp [mkSVResult, h]
  · intro r v h; simp [mkSVResult, h]
  · intro r v h; simp [mkSVResult, h]

/-- A monthly entry received out of chronological order (May before
January). -/
def c1MonthMay : JVal :=
  .obj [("year", .int 2024), ("month", .int 5), ("search_volume", .int 90)]

/-- The later-position monthly entry (January, chronologically first). -/
def c1MonthJan : JVal :=
  .obj [("year", .int 2024), ("month", .int 1), ("search_volume", .int 110)]

/-- Fixture result item with both required fields and a non-sorted
monthly list. -/
def c1Item1 : JVal :=
  .obj [("keyword", .str "shoes"), ("search_volume", .int 100),
    ("monthly_searches", .arr [c1MonthMay, c1MonthJan])]

/-- Fixture result item with both required fields and no monthly list. -/
def c1Item2 : JVal :=
  .obj [("keyword", .str "boots"), ("search_volume", .int 50)]

/-- Fixture result item missing `search_volume`: must be dropped. -/
def c1Item3 : JVal :=
  .obj [("keyword", .str "hats")]

/-- Fixture response: envelope 20000, one succeeding task, three result
items of which the third lacks `search_volume`. -/
def c1Resp : JVal :=
  .obj [("status_code", .int 20000), ("status_message", .str "Ok."),
    ("tasks", .arr [.obj [("status_code", .int 20000),
      ("result", .arr [c1Item1, c1Item2, c1Item3])]])]

/-- C1 witness: on the fixture, exactly the two complete items come
back (the incomplete one is dropped) and the monthly list keeps the
received (non-chronological) order. -/
theorem c1_locale_parse_witness :
    (get_search_volume { session := some { closed := false } }
        ["shoes", "boots", "hats"] (some "United States") none
        (some "English") none true none (fun _ => c1Resp)).1
      = .ok [mkSVResult c1Item1, mkSVResult c1Item2]
    ∧ (mkSVResult c1Item1).keyword = .str "shoes"
    ∧ (mkSVResult c1Item1).monthly_searches = .arr [c1MonthMay, c1MonthJan] := by
  have h := c1_locale_parse ["shoes", "boots", "hats"] (some "United States")
    none (some "English") none true none (fun _ => c1Resp) c1Resp rfl
    (by decide) (by decide) (by decide) rfl rfl
  exact ⟨h.1.trans (by rfl), h.2.1 c1Item1 (.str "shoes") rfl,
    h.2.2.2 c1Item1 (.arr [c1MonthMay, c1MonthJan]) rfl⟩

/-! C6 -/

/-- C6: a task whose own status code is not 20000 is skipped without
raising: the parse of a task list containing it equals the parse of the
same list with that task removed, so only succeeding tasks contribute
results. -/
theorem c6_failing_task_skipped (ts1 ts2 : List JVal) (t : JVal)
    (h : statusIsSuccess t = false) :
    svTasksLoop (ts1 ++ t :: ts2) = svTasksLoop (ts1 ++ ts2) := by
  simp [svTasksLoop_eq, List.filter_append, List.filter_cons, h]

/-- Fixture item of the succeeding task. -/
def c6GoodItem : JVal :=
  .obj [("keyword", .str "shoes"), ("search_volume", .int 100)]

/-- Fixture succeeding task holding one complete item. -/
def c6TaskOk : JVal :=
  .obj [("status_code", .int 20000), ("result", .arr [c6GoodItem])]

/-- Fixture failing task, also holding one complete item (which must
not appear in the output). -/
def c6TaskBad : JVal :=
  .obj [("status_code", .int 40501), ("status_message", .str "Invalid Field"),
    ("result", .arr [.obj [("keyword", .str "boots"), ("search_volume", .int 77)]])]

/-- Fixture response with a succeeding envelope, one succeeding and one
failing task, one item each. -/
def c6Resp : JVal :=
  .obj [("status_code", .int 20000), ("tasks", .arr [c6TaskOk, c6TaskBad])]

/-- C6 witness: with one succeeding and one failing task (one item
each), the parse drops the failing task and the result has length 1. -/
theorem c6_failing_task_skipped_witness :
    statusIsSuccess c6TaskBad = false
    ∧ svTasksLoop [c6TaskOk, c6TaskBad] = svTasksLoop [c6TaskOk]
    ∧ (parseSearchVolume c6Resp).length = 1 := by
  exact ⟨rfl, c6_failing_task_skipped [c6TaskOk] [] c6TaskBad rfl, rfl⟩

/-! C9 -/

/-- C9: with a fixed provider response, running the same query twice
with identical arguments on the same client (threading the client state
through the first call) yields structurally identical outcomes, and the
call leaves the client state untouched — parsing is a deterministic
function of the response and the arguments, with no hidden mutable
state. Holds for all three list-returning query methods. -/
theorem c9_deterministic (st : ClientState) (keywords : List String)
    (ln : Option String) (lc : Option Int) (lgn lgc : Option String)
    (uc : Bool) (tag : Option String) (provider : JVal → JVal) :
    ((get_search_volume ((get_search_volume st keywords ln lc lgn lgc uc
          tag provider).2.2) keywords ln lc lgn lgc uc tag provider).1
        = (get_search_volume st keywords ln lc lgn lgc uc tag provider).1
      ∧ (get_search_volume st keywords ln lc lgn lgc uc tag provider).2.2 = st)
    ∧ ((get_global_search_volume ((get_global_search_volume st keywords
          tag provider).2.2) keywords tag provider).1
        = (get_global_search_volume st keywords tag provider).1
      ∧ (get_global_search_volume st keywords tag provider).2.2 = st)
    ∧ ((get_search_volume_by_location ((get_search_volume_by_location st
          keywords ln lc tag provider).2.2) keywords ln lc tag provider).1
        = (get_search_volume_by_location st keywords ln lc tag provider).1
      ∧ (get_search_volume_by_location st keywords ln lc tag provider).2.2 = st) := by
  refine ⟨⟨?_, sv_state_fixed ..⟩, ⟨?_, gsv_state_fixed ..⟩, ⟨?_, svbl_state_fixed ..⟩⟩
  · rw [sv_state_fixed]
  · rw [gsv_state_fixed]
  · rw [svbl_state_fixed]

/-! C10 -/

/-- A well-formed single-task response whose only result object nests
one item, as read by the two `result[].items` endpoints. -/
def c10Resp (item : JVal) : JVal :=
  .obj [("status_code", .int 20000),
    ("tasks", .arr [.obj [("status_code", .int 20000),
      ("result", .arr [.obj [("items", .arr [item])]])]])]

/-- C10: in `get_global_search_volume` and
`get_search_volume_by_location`, an item inside a successful task's
`result[].items` lacking the `keyword` or the `search_volume` key is
not dropped: parsing raises `KeyError` — unlike the
`get_search_volume` loop, which silently drops such an item. -/
theorem c10_nested_items_keyerror (item : JVal)
    (h : item.get "keyword" = none ∨ item.get "search_volume" = none) :
    (∃ k, parseGlobalSearchVolume (c10Resp item) = .error (.keyError k))
    ∧ (∃ k, parseSearchVolumeByLocation (c10Resp item) = .error (.keyError k))
    ∧ svResultsLoop [item] = [] := by
  have hks : hasKwSv item = false := by
    rcases h with h | h <;> simp [hasKwSv, h]
  have hdrop : svResultsLoop [item] = [] := by simp [svResultsLoop, hks]
  rcases hkw : item.get "keyword" with _ | kw
  · refine ⟨⟨"keyword", ?_⟩, ⟨"keyword", ?_⟩, hdrop⟩
    · have h1 : gsvItemsLoop [item] = .error (.keyError "keyword") := by
        simp [gsvItemsLoop, hkw]
      simp [parseGlobalSearchVolume, c10Resp, tasksOf, resultsOf, itemsOf,
        gsvTasksLoop, gsvResultsLoop, statusIsSuccess, JVal.get, JVal.asList,
        List.lookup, h1]
    · have h1 : svblItemsLoop .null [item] = .error (.keyError "keyword") := by
        simp [svblItemsLoop, hkw]
      simp [parseSearchVolumeByLocation, c10Resp, tasksOf, resultsOf, itemsOf,
        svblTasksLoop, svblResultsLoop, statusIsSuccess, JVal.get, JVal.asList,
        List.lookup, h1]
  · have hsv : item.get "search_volume" = none := by
      rcases h with h' | h'
      · rw [h'] at hkw; cases hkw
      · exact h'
    refine ⟨⟨"search_volume", ?_⟩, ⟨"search_volume", ?_⟩, hdrop⟩
    · have h1 : gsvItemsLoop [item] = .error (.keyError "search_volume") := by
        simp [gsvItemsLoop, hkw, hsv]
      simp [parseGlobalSearchVolume, c10Resp, tasksOf, resultsOf, itemsOf,
        gsvTasksLoop, gsvResultsLoop, statusIsSuccess, JVal.get, JVal.asList,
        List.lookup, h1]
    · have h1 : svblItemsLoop .null [item] = .error (.keyError "search_volume") := by
        simp [svblItemsLoop, hkw, hsv]
      simp [parseSearchVolumeByLocation, c10Resp, tasksOf, resultsOf, itemsOf,
        svblTasksLoop, svblResultsLoop, statusIsSuccess, JVal.get, JVal.asList,
        List.lookup, h1]

/-- C10 witness: a nested item carrying `keyword` but no
`search_volume` makes both nested-items parsers raise `KeyError`, while
the `get_search_volume` loop drops it. -/
theorem c10_nested_items_keyerror_witness :
    ((∃ k, parseGlobalSearchVolume (c10Resp (.obj [("keyword", .str "abc")]))
        = .error (.keyError k))
    ∧ (∃ k, parseSearchVolumeByLocation (c10Resp (.obj [("keyword", .str "abc")]))
        = .error (.keyError k))
    ∧ svResultsLoop [.obj [("keyword", .str "abc")]] = []) :=
  c10_nested_items_keyerror (.obj [("keyword", .str "abc")]) (Or.inr rfl)

/-! C3 -/

/-- C3: `get_search_volume` fails with `InvalidArgument` (Python
`ValueError`) and issues no network call whenever the keywords list has
length 0 or more than 1000, or both locale fields are missing, or both
language fields are missing — regardless of client state. -/
theorem c3_locale_validation (st : ClientState) (keywords : List String)
    (ln : Option String) (lc : Option Int) (lgn lgc : Option String)
    (uc : Bool) (tag : Option String) (provider : JVal → JVal)
    (h : keywords.length = 0 ∨ keywords.length > 1000
      ∨ (ln = none ∧ lc = none) ∨ (lgn = none ∧ lgc = none)) :
    ∃ m, get_search_volume st keywords ln lc lgn lgc uc tag provider
      = (.error (.invalidArgument m), 0, st) := by
  unfold get_search_volume
  split_ifs with h1 h2 h3 h4
  · exact ⟨_, rfl⟩
  · exact ⟨_, rfl⟩
  · exact ⟨_, rfl⟩
  · exact ⟨_, rfl⟩
  · exfalso
    rcases h with h | h | ⟨ha, hb⟩ | ⟨ha, hb⟩
    · exact h1 (by simpa [List.isEmpty_iff, List.length_eq_zero] using h)
    · exact h2 h
    · subst ha; subst hb; exact h3 (by simp [truthyStr, truthyInt])
    · subst ha; subst hb; exact h4 (by simp [truthyStr])

/-- C3 witness: the empty list and the missing-language call both fail
with `InvalidArgument` and zero requests, even on an acquired client. -/
theorem c3_locale_validation_witness :
    (∃ m, get_search_volume (aenter initState) [] (some "United States") none
      (some "English") none true none (fun _ => .null)
        = (.error (.invalidArgument m), 0, aenter initState))
    ∧ (∃ m, get_search_volume (aenter initState) ["shoes"] (some "United States")
      none none none true none (fun _ => .null)
        = (.error (.invalidArgument m), 0, aenter initState)) :=
  ⟨c3_locale_validation (aenter initState) [] (some "United States") none
      (some "English") none true none (fun _ => .null) (Or.inl rfl),
    c3_locale_validation (aenter initState) ["shoes"] (some "United States")
      none none none true none (fun _ => .null)
      (Or.inr (Or.inr (Or.inr ⟨rfl, rfl⟩)))⟩

/-! C4 -/

/-- C4: `get_global_search_volume` fails with `InvalidArgument` and
issues no network call whenever the keywords list is empty or some
keyword is shorter than 3 characters — regardless of client state. -/
theorem c4_global_validation (st : ClientState) (keywords : List String)
    (tag : Option String) (provider : JVal → JVal)
    (h : keywords = [] ∨ ∃ k ∈ keywords, k.length < 3) :
    ∃ m, get_global_search_volume st keywords tag provider
      = (.error (.invalidArgument m), 0, st) := by
  unfold get_global_search_volume
  split_ifs with h1 h2
  · exact ⟨_, rfl⟩
  · exact ⟨_, rfl⟩
  · rcases hf : keywords.find? (fun k => decide (k.length < 3)) with _ | k
    · exfalso
      rcases h with h | ⟨k, hk, hlen⟩
      · subst h; simp at h1
      · rw [List.find?_eq_none] at hf
        exact absurd (by simpa using hlen) (by simpa using hf k hk)
    · rw [hf]
      exact ⟨_, rfl⟩

/-- C4 witness: a list containing a 2-character keyword fails with
`InvalidArgument` and zero requests on an acquired client. -/
theorem c4_global_validation_witness :
    ∃ m, get_global_search_volume (aenter initState) ["shoes", "ab"] none
      (fun _ => .null) = (.error (.invalidArgument m), 0, aenter initState) :=
  c4_global_validation (aenter initState) ["shoes", "ab"] none (fun _ => .null)
    (Or.inr ⟨"ab", by simp, by decide⟩)

/-! C5 -/

/-- C5: whenever the provider response's envelope status code is not
20000, every query operation — all three POST queries and the GET
locations/languages query — raises `ProviderError` carrying the
envelope's status code and status message, and yields no results. -/
theorem c5_provider_error (keywords : List String) (ln : Option String)
    (lc : Option Int) (lgn lgc : Option String) (uc : Bool)
    (tag : Option String) (resp : JVal)
    (hkw : keywords.isEmpty = false)
    (hlen : ¬ keywords.length > 1000)
    (hloc : (truthyStr ln || truthyInt lc) = true)
    (hlang : (truthyStr lgn || truthyStr lgc) = true)
    (hmin : keywords.find? (fun k => decide (k.length < 3)) = none)
    (henv : statusIsSuccess resp = false) :
    (get_search_volume { session := some { closed := false } } keywords ln lc
        lgn lgc uc tag (fun _ => resp)).1
      = .error (.providerError ((resp.get "status_code").getD .null)
          ((resp.get "status_message").getD (.str "Unknown error")))
    ∧ (get_global_search_volume { session := some { closed := false } }
        keywords tag (fun _ => resp)).1
      = .error (.providerError ((resp.get "status_code").getD .null)
          ((resp.get "status_message").getD (.str "Unknown error")))
    ∧ (get_search_volume_by_location { session := some { closed := false } }
        keywords ln lc tag (fun _ => resp)).1
      = .error (.providerError ((resp.get "status_code").getD .null)
          ((resp.get "status_message").getD (.str "Unknown error")))
    ∧ (get_locations_and_languages { session := some { closed := false } }
        (fun _ => resp)).1
      = .error (.providerError ((resp.get "status_code").getD .null)
          ((resp.get "status_message").getD (.str "Unknown error"))) := by
  have hce : checkEnvelope resp
      = .error (.providerError ((resp.get "status_code").getD .null)
          ((resp.get "status_message").getD (.str "Unknown error"))) := by
    simp [checkEnvelope, henv]
  refine ⟨?_, ?_, ?_, ?_⟩
  · simp [get_search_volume, hkw, hlen, hloc, hlang, makeRequest, hce]
  · simp [get_global_search_volume, hkw, hlen, hmin, makeRequest, hce]
  · simp [get_search_volume_by_location, hkw, hloc, makeRequest, hce]
  · simp [get_locations_and_languages, makeRequestGET, hce]

/-- Fixture failing envelope: status code 40000. -/
def c5Resp : JVal :=
  .obj [("status_code", .int 40000), ("status_message", .str "API error.")]

/-- C5 witness: on a response with envelope status code 40000, all four
operations fail with `ProviderError` carrying code 40000 and the
message. -/
theorem c5_provider_error_witness :
    (get_search_volume { session := some { closed := false } } ["abc"]
        (some "United States") none (some "English") none true none
        (fun _ => c5Resp)).1
      = .error (.providerError (.int 40000) (.str "API error."))
    ∧ (get_global_search_volume { session := some { closed := false } } ["abc"]
        none (fun _ => c5Resp)).1
      = .error (.providerError (.int 40000) (.str "API error."))
    ∧ (get_search_volume_by_location { session := some { closed := false } }
        ["abc"] (some "United States") none none (fun _ => c5Resp)).1
      = .error (.providerError (.int 40000) (.str "API error."))
    ∧ (get_locations_and_languages { session := some { closed := false } }
        (fun _ => c5Resp)).1
      = .error (.providerError (.int 40000) (.str "API error.")) := by
  have h := c5_provider_error ["abc"] (some "United States") none
    (some "English") none true none c5Resp rfl (by decide) (by decide)
    (by decide) rfl rfl
  exact ⟨h.1, h.2.1, h.2.2.1, h.2.2.2⟩

/-! C2 -/

/-- C2 counterexample: the claim that every query call outside the
acquired lifetime fails with `ClientNotInitialized` is false on two
concrete inputs. After release (`aexit` after `aenter`), the session
attribute still holds the (closed) session object, so the guard does
not fire: the call fails on the closed session instead. And before
acquisition, argument validation runs first, so an empty keywords list
fails with `InvalidArgument`, not `ClientNotInitialized`. -/
theorem c2_counterexample :
    ((get_search_volume (aexit (aenter initState)) ["shoes"]
        (some "United States") none (some "English") none true none
        (fun _ => .null)).1 = .error .sessionClosed
      ∧ (get_search_volume (aexit (aenter initState)) ["shoes"]
        (some "United States") none (some "English") none true none
        (fun _ => .null)).1 ≠ .error .clientNotInitialized)
    ∧ ((get_search_volume initState [] (some "United States") none
        (some "English") none true none (fun _ => .null)).1
          = .error (.invalidArgument "Keywords list cannot be empty")
      ∧ (get_search_volume initState [] (some "United States") none
        (some "English") none true none (fun _ => .null)).1
          ≠ .error .clientNotInitialized) :=
  ⟨⟨rfl, fun hc => PyErr.noConfusion (Except.error.inj hc)⟩,
    ⟨rfl, fun hc => PyErr.noConfusion (Except.error.inj hc)⟩⟩

/-- C2 (amended): for calls whose arguments pass validation — before
acquisition (session attribute `None`) every query method fails with
`ClientNotInitialized` and performs no request; after release the
session attribute is retained (it is never reset to `None`), so the
guard does not fire: the call fails on the closed session, still
performing no request. -/
theorem c2_lifecycle_amended (keywords : List String) (ln : Option String)
    (lc : Option Int) (lgn lgc : Option String) (uc : Bool)
    (tag : Option String) (provider : JVal → JVal) (gprov : Unit → JVal)
    (hkw : keywords.isEmpty = false)
    (hlen : ¬ keywords.length > 1000)
    (hloc : (truthyStr ln || truthyInt lc) = true)
    (hlang : (truthyStr lgn || truthyStr lgc) = true)
    (hmin : keywords.find? (fun k => decide (k.length < 3)) = none) :
    (∀ st, st.session = none →
      get_search_volume st keywords ln lc lgn lgc uc tag provider
          = (.error .clientNotInitialized, 0, st)
      ∧ get_global_search_volume st keywords tag provider
          = (.error .clientNotInitialized, 0, st)
      ∧ get_search_volume_by_location st keywords ln lc tag provider
          = (.error .clientNotInitialized, 0, st)
      ∧ get_locations_and_languages st gprov
          = (.error .clientNotInitialized, 0, st))
    ∧ (∀ st,
      get_search_volume (aexit (aenter st)) keywords ln lc lgn lgc uc tag provider
          = (.error .sessionClosed, 0, aexit (aenter st))
      ∧ get_global_search_volume (aexit (aenter st)) keywords tag provider
          = (.error .sessionClosed, 0, aexit (aenter st))
      ∧ get_search_volume_by_location (aexit (aenter st)) keywords ln lc tag provider
          = (.error .sessionClosed, 0, aexit (aenter st))
      ∧ get_locations_and_languages (aexit (aenter st)) gprov
          = (.error .sessionClosed, 0, aexit (aenter st))) := by
  constructor
  · intro st hns
    refine ⟨?_, ?_, ?_, ?_⟩
    · simp [get_search_volume, hkw, hlen, hloc, hlang, makeRequest, hns]
    · simp [get_global_search_volume, hkw, hlen, hmin, makeRequest, hns]
    · simp [get_search_volume_by_location, hkw, hloc, makeRequest, hns]
    · simp [get_locations_and_languages, makeRequestGET, hns]
  · intro st
    have hra : aexit (aenter st) = { session := some { closed := true } } := rfl
    rw [hra]
    refine ⟨?_, ?_, ?_, ?_⟩
    · simp [get_search_volume, hkw, hlen, hloc, hlang, makeRequest]
    · simp [get_global_search_volume, hkw, hlen, hmin, makeRequest]
    · simp [get_search_volume_by_location, hkw, hloc, makeRequest]
    · simp [get_locations_and_languages, makeRequestGET]

/-- C2 witness: concrete before-acquisition and after-release calls
with valid arguments. -/
theorem c2_lifecycle_amended_witness :
    (get_search_volume initState ["abc"] (some "United States") none
        (some "English") none true none (fun _ => .null)
      = (.error .clientNotInitialized, 0, initState))
    ∧ (get_search_volume (aexit (aenter initState)) ["abc"]
        (some "United States") none (some "English") none true none
        (fun _ => .null)
      = (.error .sessionClosed, 0, aexit (aenter initState))) := by
  have h := c2_lifecycle_amended ["abc"] (some "United States") none
    (some "English") none true none (fun _ => .null) (fun _ => .null) rfl
    (by decide) (by decide) (by decide) rfl
  exact ⟨(h.1 initState rfl).1, (h.2 initState).1⟩

/-! C7 -/

/-- C7: for arguments passing validation, the `get_search_volume`
request body is a one-element list whose single object carries the
keywords and the `use_clickstream` flag; exactly one locale field
(`location_name` wins when truthy, else `location_code`) and exactly
one language field (`language_name` wins when truthy, else
`language_code`); and `tag` is present exactly when a truthy tag was
given. -/
theorem c7_payload_shape (keywords : List String) (ln : Option String)
    (lc : Option Int) (lgn lgc : Option String) (uc : Bool)
    (tag : Option String)
    (hloc : (truthyStr ln || truthyInt lc) = true)
    (hlang : (truthyStr lgn || truthyStr lgc) = true) :
    buildSVPayload keywords ln lc lgn lgc uc tag
      = .arr [.obj (svPayloadFields keywords ln lc lgn lgc uc tag)]
    ∧ (JVal.obj (svPayloadFields keywords ln lc lgn lgc uc tag)).get "keywords"
        = some (.arr (keywords.map .str))
    ∧ (JVal.obj (svPayloadFields keywords ln lc lgn lgc uc tag)).get
        "use_clickstream" = some (.bool uc)
    ∧ (truthyStr ln = true →
        (JVal.obj (svPayloadFields keywords ln lc lgn lgc uc tag)).get
            "location_name" = ln.map .str
        ∧ (JVal.obj (svPayloadFields keywords ln lc lgn lgc uc tag)).get
            "location_code" = none)
    ∧ (truthyStr ln = false →
        (JVal.obj (svPayloadFields keywords ln lc lgn lgc uc tag)).get
            "location_code" = lc.map .int
        ∧ (JVal.obj (svPayloadFields keywords ln lc lgn lgc uc tag)).get
            "location_name" = none)
    ∧ (truthyStr lgn = true →
        (JVal.obj (svPayloadFields keywords ln lc lgn lgc uc tag)).get
            "language_name" = lgn.map .str
        ∧ (JVal.obj (svPayloadFields keywords ln lc lgn lgc uc tag)).get
            "language_code" = none)
    ∧ (truthyStr lgn = false →
        (JVal.obj (svPayloadFields keywords ln lc lgn lgc uc tag)).get
            "language_code" = lgc.map .str
        ∧ (JVal.obj (svPayloadFields keywords ln lc lgn lgc uc tag)).get
            "language_name" = none)
    ∧ ((JVal.obj (svPayloadFields keywords ln lc lgn lgc uc tag)).get
        "tag").isSome = truthyStr tag
    ∧ (truthyStr tag = true →
        (JVal.obj (svPayloadFields keywords ln lc lgn lgc uc tag)).get "tag"
          = tag.map .str) := by
  cases hln : truthyStr ln <;> cases hlc : truthyInt lc <;>
    cases hlgn : truthyStr lgn <;> cases hlgc : truthyStr lgc <;>
    cases htag : truthyStr tag <;>
    simp_all [buildSVPayload, svPayloadFields, JVal.get, List.lookup,
      map_str_of_truthy, map_int_of_truthy]

/-- C7 witness: with both locale fields and both language fields given
plus a tag, the payload keeps the name variants, omits the code
variants, and carries the tag. -/
theorem c7_payload_shape_witness :
    (JVal.obj (svPayloadFields ["shoes"] (some "United States") (some 2840)
        (some "English") (some "en") true (some "t1"))).get "location_name"
      = some (.str "United States")
    ∧ (JVal.obj (svPayloadFields ["shoes"] (some "United States") (some 2840)
        (some "English") (some "en") true (some "t1"))).get "location_code"
      = none
    ∧ (JVal.obj (svPayloadFields ["shoes"] (some "United States") (some 2840)
        (some "English") (some "en") true (some "t1"))).get "language_name"
      = some (.str "English")
    ∧ (JVal.obj (svPayloadFields ["shoes"] (some "United States") (some 2840)
        (some "English") (some "en") true (some "t1"))).get "language_code"
      = none
    ∧ (JVal.obj (svPayloadFields ["shoes"] (some "United States") (some 2840)
        (some "English") (some "en") true (some "t1"))).get "tag"
      = some (.str "t1") := by
  have h := c7_payload_shape ["shoes"] (some "United States") (some 2840)
    (some "English") (some "en") true (some "t1") (by decide) (by decide)
  obtain ⟨-, -, -, h4, -, h6, -, -, h9⟩ := h
  exact ⟨(h4 (by decide)).1, (h4 (by decide)).2, (h6 (by decide)).1,
    (h6 (by decide)).2, h9 (by decide)⟩

/-! C8 -/

/-- C8: `get_search_volume_by_location` enforces no 3-character
minimum: on an acquired client, any non-empty keywords list with a
truthy location field passes validation and a request is issued
(request count 1), even when keywords are shorter than 3 characters;
and only an empty list or a missing location field yields
`InvalidArgument` (with no request). -/
theorem c8_byloc_validation (keywords : List String) (ln : Option String)
    (lc : Option Int) (tag : Option String) (provider : JVal → JVal) :
    (keywords.isEmpty = false → (truthyStr ln || truthyInt lc) = true →
      (get_search_volume_by_location { session := some { closed := false } }
        keywords ln lc tag provider).2.1 = 1)
    ∧ (∀ st, (keywords = [] ∨ (ln = none ∧ lc = none)) →
      ∃ m, get_search_volume_by_location st keywords ln lc tag provider
        = (.error (.invalidArgument m), 0, st)) := by
  constructor
  · intro hkw hloc
    rcases hce : checkEnvelope (provider (buildSVBLPayload keywords ln lc tag))
      with e | resp
    · simp [get_search_volume_by_location, hkw, hloc, makeRequest, hce]
    · rcases hp : parseSearchVolumeByLocation resp with e | rs <;>
        simp [get_search_volume_by_location, hkw, hloc, makeRequest, hce, hp]
  · intro st h
    unfold get_search_volume_by_location
    split_ifs with h1 h2
    · exact ⟨_, rfl⟩
    · exact ⟨_, rfl⟩
    · exfalso
      rcases h with h | ⟨ha, hb⟩
      · subst h; simp at h1
      · subst ha; subst hb; exact h2 (by simp [truthyStr, truthyInt])

/-- Fixture empty-but-successful response for the C8 witness. -/
def c8Resp : JVal :=
  .obj [("status_code", .int 20000), ("tasks", .arr [])]

/-- C8 witness: the 2-character keyword list passes validation and one
request is issued; the empty list fails with `InvalidArgument` and no
request. -/
theorem c8_byloc_validation_witness :
    (get_search_volume_by_location { session := some { closed := false } }
        ["ab"] none (some 2840) none (fun _ => c8Resp)).2.1 = 1
    ∧ (∃ m, get_search_volume_by_location initState [] none (some 2840) none
        (fun _ => c8Resp) = (.error (.invalidArgument m), 0, initState)) :=
  ⟨(c8_byloc_validation ["ab"] none (some 2840) none (fun _ => c8Resp)).1
      rfl (by decide),
    (c8_byloc_validation [] none (some 2840) none (fun _ => c8Resp)).2
      initState (Or.inl rfl)⟩
